import Mathlib

/-!
Shallow embedding of the process supervisor in
`src/src-tauri/src/proxy/engine.rs` (`MitmproxyEngine`), together with the
log classifier it spawns and the crash watcher loop.

Modelling conventions:
* OS interaction (child processes, TCP connects, the `sysinfo` process
  table, lock poisoning) is supplied by explicit environment records; the
  translated control flow is exactly the Rust control flow.
* `Instant` values are naturals counting milliseconds; `duration_since`
  is truncated (saturating) subtraction, as in Rust.
* Polling loops that sleep a fixed interval are indexed by iteration
  number: the 120 s readiness wait polls every 200 ms, the 5 s
  port-release wait every 100 ms, so their iteration budgets are
  120000/200 and 5000/100.
* `ExitStatus` is abstracted to an `Int` exit code rendered with
  `toString` inside error messages.
* The `AppError` enum of `src/src-tauri/src/common/error.rs` is embedded
  with its three variants used by the engine; the spec's `AlreadyRunning`
  is the code's `AppError::Config("Proxy is already running")`.
-/

namespace RelayCraft

/-- `AppError` variants used by `engine.rs` (`common/error.rs`). -/
inductive AppError where
  | io (msg : String)
  | config (msg : String)
  | notFound (msg : String)
deriving DecidableEq

/-- A spawned child process handle; only its pid is observable to the
supervisor (`Child::id`). -/
structure Child where
  pid : Nat
deriving DecidableEq

/-- Result of a non-blocking `Child::try_wait()` call: `ok none` means the
child is still running, `ok (some st)` means it exited with status `st`,
`err` is an OS error. -/
inductive TryWaitResult where
  | ok (exited : Option Int)
  | err (msg : String)
deriving DecidableEq

/-- The supervisor state: the fields of `EngineInner` (engine.rs lines
41-50).  Lock poisoning is modelled where a claim quantifies over it;
otherwise locks are healthy. -/
structure EngineState where
  child : Option Child
  activeScripts : List String
  lastPort : Option Nat
  isStopping : Bool
  cachedPids : List Nat
  lastPidRefresh : Nat
  trafficActive : Bool
deriving DecidableEq

/-- `ProxyStatus` as returned by `get_status`. -/
structure ProxyStatus where
  running : Bool
  active : Bool
  active_scripts : List String
deriving DecidableEq

/-- `EngineStats` as returned by `get_stats`; `cpu_usage` (an `f32` in the
source) is embedded as a rational. -/
structure EngineStats where
  memory_usage : Nat
  cpu_usage : ℚ
  up_time : Nat
  rx_speed : Nat
  tx_speed : Nat
deriving DecidableEq

/-- Kill / reap actions issued against the OS, in program order. -/
inductive ProcAction where
  | kill (pid : Nat)
  | reap (pid : Nat)
deriving DecidableEq

/-- Everything the outside world feeds into one `start()` call:
results of path resolution, storage reads, the spawn, and the two probes
made by each readiness-wait iteration (`connectOk i` is the TCP connect
attempt of iteration `i`, `exitedAt i` the `Ok(Some status)` outcome of
the non-blocking exit check of iteration `i`, `none` covering both
`Ok(None)` and `Err(_)`, which the loop treats alike). -/
structure StartEnv where
  heldTryWait : TryWaitResult
  enginePath : Except String String
  engineExists : Bool
  addonPath : Except AppError String
  rulesDir : Except String String
  dataDir : Except String String
  certDir : Except String String
  sslInsecure : Bool
  upstreamEnabled : Bool
  upstreamUrl : String
  scriptStorage : Except String Unit
  userScripts : Except String (List String)
  anchorExists : Bool
  anchorPath : String
  spawnResult : Except String Nat
  proxyPort : Nat
  connectOk : Nat → Bool
  exitedAt : Nat → Option Int

/-- Value returned by the embedded `start`/`stop`: the `Result`, the
supervisor state after the call, and the kill/reap actions performed. -/
structure StartResult where
  result : Except AppError Unit
  state : EngineState
  actions : List ProcAction

/-- Error message of the already-running check (engine.rs line 86). -/
def alreadyRunningMsg : String := "Proxy is already running"

/-- Error message used for poisoned locks. -/
def lockPoisonedMsg : String := "Lock poisoned"

/-- Error message built when the child exits during the readiness wait
(engine.rs line 224). -/
def crashDuringStartMsg (st : Int) : String :=
  "Engine crashed during startup with status: " ++ toString st

/-- Timeout error message (engine.rs line 259; the text says 30s but the
constant is 120s). -/
def startTimeoutMsg : String :=
  "Timeout waiting for proxy engine to start (30s). Check if something is blocking port or if antivirus is interfering."

/-- Readiness-wait timeout, milliseconds (engine.rs line 203). -/
def startTimeoutMs : Nat := 120000

/-- Sleep between readiness polls, milliseconds (engine.rs line 243). -/
def startPollMs : Nat := 200

/-- Iteration budget of the readiness wait. -/
def startMaxIters : Nat := startTimeoutMs / startPollMs

/-- The argument vector built by `start` (engine.rs lines 110-128 and
155-160): fixed flags, the addon entry script, the port, optional
TLS-insecure flag, optional upstream mode, and the anchor script when it
exists on disk. -/
def argsOf (env : StartEnv) (addonFile : String) : List String :=
  ["--flow-detail", "0", "-s", addonFile, "-p", toString env.proxyPort]
    ++ (if env.sslInsecure then ["--ssl-insecure"] else [])
    ++ (if env.upstreamEnabled && !env.upstreamUrl.isEmpty then
          ["--mode", "upstream:" ++ env.upstreamUrl]
        else [])
    ++ (if env.anchorExists then ["-s", env.anchorPath] else [])

/-- The readiness-wait loop of `start` (engine.rs lines 208-260), indexed
by remaining fuel (iterations left before the 120 s timeout) and the
current iteration number.  Each iteration first attempts the TCP connect,
then the non-blocking exit check, exactly in source order.  Fuel
exhaustion is the `!ready` path: take the child, kill it, reap it, and
return the timeout error. -/
def waitLoop (env : StartEnv) (pid : Nat) (s : EngineState) :
    Nat → Nat → StartResult
  | 0, _ =>
    ⟨.error (.config startTimeoutMsg), { s with child := none },
      [ProcAction.kill pid, ProcAction.reap pid]⟩
  | fuel + 1, i =>
    if env.connectOk i then ⟨.ok (), s, []⟩
    else
      match env.exitedAt i with
      | some st =>
        ⟨.error (.config (crashDuringStartMsg st)), { s with child := none }, []⟩
      | none => waitLoop env pid s fuel (i + 1)

/-- `start` after the already-running prologue (engine.rs lines 90-265):
path resolution, storage reads, recording of the active script list,
spawn, and the readiness wait. -/
def startResolve (env : StartEnv) (s : EngineState) : StartResult :=
  match env.enginePath with
  | .error e => ⟨.error (.config e), s, []⟩
  | .ok enginePath =>
    match env.engineExists with
    | false => ⟨.error (.notFound ("Engine not found: " ++ enginePath)), s, []⟩
    | true =>
      match env.addonPath with
      | .error e => ⟨.error e, s, []⟩
      | .ok _addonFile =>
        match env.rulesDir with
        | .error e => ⟨.error (.config e), s, []⟩
        | .ok _ =>
          match env.dataDir with
          | .error e => ⟨.error (.config e), s, []⟩
          | .ok _ =>
            match env.certDir with
            | .error e => ⟨.error (.config e), s, []⟩
            | .ok _ =>
              match env.scriptStorage with
              | .error e => ⟨.error (.config e), s, []⟩
              | .ok _ =>
                match env.userScripts with
                | .error e => ⟨.error (.config e), s, []⟩
                | .ok userScripts =>
                  -- engine.rs lines 143-153: record the active script list
                  let s1 : EngineState := { s with activeScripts := userScripts }
                  -- second get_addon_path call for the anchor directory
                  match env.addonPath with
                  | .error e => ⟨.error e, s1, []⟩
                  | .ok _ =>
                    match env.spawnResult with
                    | .error e => ⟨.error (.io e), s1, []⟩
                    | .ok pid =>
                      -- lines 190-198: clear stop flag, store child, store port
                      let s2 : EngineState :=
                        { s1 with
                          isStopping := false
                          child := some ⟨pid⟩
                          lastPort := some env.proxyPort }
                      waitLoop env pid s2 startMaxIters 0

/-- `MitmproxyEngine::start` (engine.rs lines 76-266).  The prologue
(lines 83-88) rejects only a held child whose non-blocking exit check
reports it still running; a `try_wait` error propagates via `?`. -/
def start (env : StartEnv) (s : EngineState) : StartResult :=
  match s.child, env.heldTryWait with
  | some _, .err e => ⟨.error (.io e), s, []⟩
  | some _, .ok none => ⟨.error (.config alreadyRunningMsg), s, []⟩
  | some _, .ok (some _) => startResolve env s
  | none, _ => startResolve env s

/-- Environment of one `stop()` call: lock health and the connect probe
of each port-release poll iteration. -/
structure StopEnv where
  childLockOk : Bool
  scriptsLockOk : Bool
  portLockOk : Bool
  portAccepting : Nat → Bool

/-- Iteration budget of the port-release wait: 5 s polled every 100 ms
(engine.rs lines 299-309). -/
def stopPortWaitIters : Nat := 5000 / 100

/-- The port-release poll: breaks (returns true) as soon as a connect
attempt fails, runs out the 5 s budget otherwise.  Its outcome is
advisory: `stop` ignores it. -/
def portReleaseWait (accepting : Nat → Bool) : Nat → Nat → Bool
  | 0, _ => false
  | fuel + 1, i =>
    if accepting i then portReleaseWait accepting fuel (i + 1) else true

/-- `MitmproxyEngine::stop` (engine.rs lines 268-322): set the stop flag,
take and kill/reap the child if any, wait (advisorily) for the port to
close, clear the active scripts, delete temp artifacts (a filesystem
effect outside the supervisor state), and return `Ok`. -/
def stop (env : StopEnv) (s : EngineState) : StartResult :=
  let s1 : EngineState := { s with isStopping := true }
  match env.childLockOk with
  | false => ⟨.error (.config lockPoisonedMsg), s1, []⟩
  | true =>
    let port : Option Nat := if env.portLockOk then s1.lastPort else none
    let acts : List ProcAction :=
      match s1.child with
      | some c => [ProcAction.kill c.pid, ProcAction.reap c.pid]
      | none => []
    let s2 : EngineState := { s1 with child := none }
    let _released : Bool :=
      match port with
      | some _ => portReleaseWait env.portAccepting stopPortWaitIters 0
      | none => false
    let s3 : EngineState :=
      if env.scriptsLockOk then { s2 with activeScripts := [] } else s2
    ⟨.ok (), s3, acts⟩

/-- `MitmproxyEngine::get_status` (engine.rs lines 363-384): a
non-blocking probe of the held child; `running` is false on `Ok(Some _)`
and on `Err` (`unwrap_or(false)`); a not-running held child is cleared. -/
def get_status (tw : TryWaitResult) (s : EngineState) :
    ProxyStatus × EngineState :=
  let running : Bool :=
    match s.child, tw with
    | some _, .ok none => true
    | some _, .ok (some _) => false
    | some _, .err _ => false
    | none, _ => false
  let s' : EngineState :=
    if !running && s.child.isSome then { s with child := none } else s
  (⟨running, s.trafficActive,
    if running then s.activeScripts else []⟩, s')

/-- One per-iteration observation of the crash-watcher loop: what it
finds when it acquires the child lock, and the value of the stop flag it
reads in the exit branch. -/
inductive WatchObs where
  | lockFailed
  | noChild
  | child (pid : Nat) (tw : TryWaitResult) (stopping : Bool)
deriving DecidableEq

/-- Entries written to the crash domain log by the watcher: a crash
event carries the pid and exit status (the source formats them into
"Proxy engine (PID p) exited unexpectedly with status: st"); a watch
error carries the `try_wait` error text. -/
inductive CrashLogEntry where
  | crashEvent (pid : Nat) (status : Int)
  | watchErrorNote (msg : String)
deriving DecidableEq

/-- True for an observation that keeps the watcher looping: a held child
whose exit check returns `Ok(None)`. -/
def obsKeepsLooping : WatchObs → Bool
  | .child _ (.ok none) _ => true
  | _ => false

/-- The crash-watcher loop body (engine.rs lines 564-609) run against a
sequence of per-iteration observations.  Returns the crash-log entries it
wrote and whether it cleared the active script list. -/
def crashWatcherRun : List WatchObs → List CrashLogEntry × Bool
  | [] => ([], false)
  | .lockFailed :: _ => ([], false)
  | .noChild :: _ => ([], false)
  | .child pid tw stopping :: rest =>
    match tw with
    | .ok (some st) =>
      ((if stopping then [] else [CrashLogEntry.crashEvent pid st]), true)
    | .ok none => crashWatcherRun rest
    | .err e =>
      ([CrashLogEntry.watchErrorNote ("Error watching proxy process: " ++ e)],
        false)

/-- Recognizer of crash events among crash-log entries. -/
def isCrashEvent : CrashLogEntry → Bool
  | .crashEvent _ _ => true
  | .watchErrorNote _ => false

/-- Number of crash events in a list of crash-log entries. -/
def countCrashEvents (l : List CrashLogEntry) : Nat :=
  (l.filter isCrashEvent).length

/-- One process row of the `sysinfo` table after a refresh. -/
structure ProcInfo where
  pid : Nat
  parent : Option Nat
  memory : Nat
  cpu : ℚ
  runTime : Nat
deriving DecidableEq

/-- Environment of one `get_stats` call: the current instant, the
supervisor's own pid, the refreshed process table, and the core count. -/
structure StatsEnv where
  now : Nat
  mainPid : Nat
  table : List ProcInfo
  numCpus : Nat

/-- Which `refresh_processes` call `get_stats` made. -/
inductive RefreshAction where
  | refreshAll
  | refreshSome (pids : List Nat)
deriving DecidableEq

/-- PID-cache refresh interval, milliseconds (engine.rs line 434). -/
def pidRefreshMs : Nat := 30000

/-- Children of `parent` in the table, in table order (the inner `for`
of engine.rs lines 446-453). -/
def childPids (table : List ProcInfo) (parent : Nat) : List Nat :=
  (table.filter fun p => p.parent == some parent).map fun p => p.pid

/-- The pid-discovery loop of `get_stats` (engine.rs lines 441-454).  The
Rust `queue` is a `Vec` popped from the end; it is stored here in
reversed order so that `Vec::push`/`Vec::pop` become cons/head (children
pushed in table order end up reversed on top).  `pids` accumulates in
push order as in the source.  The Rust loop has no fuel; `none` models
its divergence, which cannot happen on an acyclic process table. -/
def discoverLoop (table : List ProcInfo) :
    Nat → List Nat → List Nat → Option (List Nat)
  | _, [], pids => some pids
  | 0, _ :: _, _ => none
  | fuel + 1, parent :: rest, pids =>
    discoverLoop table fuel ((childPids table parent).reverse ++ rest)
      (pids ++ childPids table parent)

/-- Full pid discovery: start with the supervisor's own pid in both
vectors.  `table.length + 2` iterations always suffice on an acyclic
table with distinct pids, each pid being pushed at most once. -/
def discoverPids (table : List ProcInfo) (mainPid : Nat) : Option (List Nat) :=
  discoverLoop table (table.length + 2) [mainPid] [mainPid]

/-- Modelled from the spec: the traversal as the spec words it, namely
breadth-first — the queue is FIFO (popped from the front, children
appended at the back).  Compared against `discoverLoop`, which is what
the source implements. -/
def bfsLoop (table : List ProcInfo) :
    Nat → List Nat → List Nat → Option (List Nat)
  | _, [], pids => some pids
  | 0, _ :: _, _ => none
  | fuel + 1, parent :: rest, pids =>
    bfsLoop table fuel (rest ++ childPids table parent)
      (pids ++ childPids table parent)

/-- Modelled from the spec: breadth-first pid discovery from the main
pid. -/
def bfsDiscoverPids (table : List ProcInfo) (mainPid : Nat) : Option (List Nat) :=
  bfsLoop table (table.length + 2) [mainPid] [mainPid]

/-- `x` is a strict descendant of `q` under the table's parent-id
relation. -/
inductive Desc (table : List ProcInfo) : Nat → Nat → Prop
  | child {q p : Nat} : p ∈ childPids table q → Desc table q p
  | step {q p r : Nat} : p ∈ childPids table q → Desc table p r → Desc table q r

/-- Memory of the table row for `pid`, 0 when the pid is gone
(`sys.process(pid)` returned `None`). -/
def memOf (table : List ProcInfo) (pid : Nat) : Nat :=
  match table.find? (fun p => p.pid == pid) with
  | some p => p.memory
  | none => 0

/-- CPU reading of the table row for `pid`, 0 when the pid is gone. -/
def cpuOf (table : List ProcInfo) (pid : Nat) : ℚ :=
  match table.find? (fun p => p.pid == pid) with
  | some p => p.cpu
  | none => 0

/-- Run time of the table row for `pid`, 0 when the pid is gone. -/
def runTimeOf (table : List ProcInfo) (pid : Nat) : Nat :=
  match table.find? (fun p => p.pid == pid) with
  | some p => p.runTime
  | none => 0

/-- One step of the aggregation `for` loop (engine.rs lines 473-481):
skip a vanished pid, otherwise add memory and cpu and record the run
time when the pid is the main pid. -/
def statsStep (table : List ProcInfo) (mainPid : Nat)
    (acc : Nat × ℚ × Nat) (pid : Nat) : Nat × ℚ × Nat :=
  match table.find? (fun p => p.pid == pid) with
  | none => acc
  | some p =>
    (acc.1 + p.memory, acc.2.1 + p.cpu,
      if pid = mainPid then p.runTime else acc.2.2)

/-- The aggregation of `get_stats` (engine.rs lines 467-494): fold the
cached pids, then normalize CPU by the core count when it is positive. -/
def aggregate (env : StatsEnv) (pids : List Nat) : EngineStats :=
  let t := pids.foldl (statsStep env.table env.mainPid) (0, 0, 0)
  let cpu : ℚ := if 0 < env.numCpus then t.2.1 / (env.numCpus : ℚ) else t.2.1
  ⟨t.1, cpu, t.2.2, 0, 0⟩

/-- `MitmproxyEngine::get_stats` (engine.rs lines 424-495): rebuild the
pid cache when it is empty or stale (updating the refresh instant and
issuing a full process refresh), otherwise refresh only the cached pids;
then aggregate.  `none` models divergence of the unfueled discovery loop
on a cyclic table. -/
def get_stats (env : StatsEnv) (s : EngineState) :
    Option (EngineStats × EngineState × RefreshAction) :=
  if s.cachedPids = [] ∨ pidRefreshMs < env.now - s.lastPidRefresh then
    match discoverPids env.table env.mainPid with
    | none => none
    | some pids =>
      let s' : EngineState :=
        { s with cachedPids := pids, lastPidRefresh := env.now }
      some (aggregate env s'.cachedPids, s', .refreshAll)
  else
    some (aggregate env s.cachedPids, s, .refreshSome s.cachedPids)

/-- Substring test on character lists: Rust `str::contains`. -/
def charsContain (sub : List Char) : List Char → Bool
  | [] => sub.isEmpty
  | a :: as => sub.isPrefixOf (a :: as) || charsContain sub as

/-- `line.contains(marker)`. -/
def strContains (line marker : String) : Bool :=
  charsContain marker.data line.data

/-- The content-based log-line classifier of `spawn_log_forwarder`
(engine.rs lines 542-557): first matching marker group wins; lines with
no marker go to the generic engine domain, whose domain string is
"proxy" (the sink maps "proxy" to engine.log, logging.rs line 51). -/
def classifyLine (line : String) : String :=
  if strContains line "[SCRIPT]" || strContains line "[RELAYCRAFT][SCRIPT]"
      || strContains line "._rc_" || strContains line "_rc_record_hit"
      || strContains line "_rc_log" then "script"
  else if strContains line "[PLUGIN]" then "plugin"
  else if strContains line "[AUDIT]" then "audit"
  else if strContains line "[CRASH]" || strContains line "Traceback" then "crash"
  else "proxy"

/-- The per-stream forwarder loop (engine.rs lines 532-562) applied to
the lines read from one stream.  `streamTag` is the `_domain` parameter,
unused by the source; `sinkFails` tells which writes the sink would
reject — the source discards that result with `.ok()`, so neither
parameter influences the writes attempted, which are returned as
(domain, message) pairs in order. -/
def forwardLines (_sinkFails : String → String → Bool)
    (_streamTag : String) (lines : List String) : List (String × String) :=
  lines.map fun line => (classifyLine line, line)

/-! Concrete sample inputs used to exercise the theorems below. -/

/-- A sample supervisor state holding the given child. -/
def sampleState (c : Option Child) : EngineState :=
  ⟨c, ["old.py"], some 9090, false, [], 0, false⟩

/-- A fully successful `start` environment: every resolution step
succeeds, the spawned child gets pid 4242 and the port is ready at the
first poll. -/
def sampleStartEnv : StartEnv where
  heldTryWait := .ok none
  enginePath := .ok "/bin/mitmdump"
  engineExists := true
  addonPath := .ok "/addons/entry.py"
  rulesDir := .ok "/rules"
  dataDir := .ok "/data"
  certDir := .ok "/certs"
  sslInsecure := false
  upstreamEnabled := false
  upstreamUrl := ""
  scriptStorage := .ok ()
  userScripts := .ok ["/scripts/user1.py", "/scripts/user2.py"]
  anchorExists := true
  anchorPath := "/addons/anchor.py"
  spawnResult := .ok 4242
  proxyPort := 9090
  connectOk := fun _ => true
  exitedAt := fun _ => none

/-- A start environment whose child dies during the readiness wait. -/
def sampleCrashEnv : StartEnv :=
  { sampleStartEnv with connectOk := fun _ => false, exitedAt := fun _ => some 9 }

/-- A start environment where the port never becomes ready and the child
never exits. -/
def sampleHangEnv : StartEnv :=
  { sampleStartEnv with connectOk := fun _ => false, exitedAt := fun _ => none }

/-- A successful start environment whose prologue exit check finds the
held child already exited (status 3). -/
def sampleDeadEnv : StartEnv :=
  { sampleStartEnv with heldTryWait := .ok (some 3) }

/-- A stop environment with healthy locks whose port keeps accepting
connections for the whole 5 s wait. -/
def sampleStopEnv : StopEnv :=
  ⟨true, true, true, fun _ => true⟩

/-- A sample process table: pid 1 is the main process, pids 2 and 3 are
its children, pid 4 a child of 2, pid 5 a child of 3. -/
def sampleTable : List ProcInfo :=
  [⟨2, some 1, 10, 1, 5⟩, ⟨3, some 1, 20, 2, 6⟩,
   ⟨4, some 2, 40, 4, 7⟩, ⟨5, some 3, 80, 8, 9⟩]

/-- A stats environment over `sampleTable` with 2 cores. -/
def sampleStatsEnv : StatsEnv :=
  ⟨100000, 1, sampleTable, 2⟩

/-- A stats environment showing the missing CPU clamp: one core, a
single process whose CPU reading is 150. -/
def overloadStatsEnv : StatsEnv :=
  ⟨1000, 1, [⟨5, none, 0, 150, 0⟩], 1⟩

/-- A state whose pid cache is fresh (same instant as `overloadStatsEnv`)
and holds exactly pid 5. -/
def overloadState : EngineState :=
  ⟨none, [], none, false, [5], 1000, false⟩

/-- A state whose pid cache [2, 3] is 10 s old at `sampleStatsEnv.now`,
so a stats call takes the targeted-refresh path. -/
def sampleFreshState : EngineState :=
  ⟨none, [], none, false, [2, 3], 90000, false⟩

end RelayCraft

namespace RelayCraft

/-! Helper lemmas shared by the claim theorems. -/

/-- A readiness-wait iteration with fuel left returns ready as soon as
the connect attempt succeeds, whatever the exit check would say. -/
theorem waitLoop_connect_now (env : StartEnv) (pid : Nat) (s : EngineState)
    (fuel i : Nat) (hf : fuel ≠ 0) (h : env.connectOk i = true) :
    waitLoop env pid s fuel i = ⟨.ok (), s, []⟩ := by
  cases fuel with
  | zero => exact absurd rfl hf
  | succ n => simp [waitLoop, h]

/-- A readiness-wait iteration whose connect fails and whose exit check
observes an exit aborts with the crash error and clears the child. -/
theorem waitLoop_crash_now (env : StartEnv) (pid : Nat) (s : EngineState)
    (fuel i : Nat) (st : Int) (hf : fuel ≠ 0)
    (hc : env.connectOk i = false) (he : env.exitedAt i = some st) :
    waitLoop env pid s fuel i =
      ⟨.error (.config (crashDuringStartMsg st)), { s with child := none }, []⟩ := by
  cases fuel with
  | zero => exact absurd rfl hf
  | succ n => simp [waitLoop, hc, he]

/-- When no poll ever connects and the child never exits, the readiness
wait runs out its fuel and returns the timeout error after killing and
reaping the child. -/
theorem waitLoop_timeout (env : StartEnv) (pid : Nat) (s : EngineState)
    (h : ∀ j, env.connectOk j = false ∧ env.exitedAt j = none) :
    ∀ fuel i, waitLoop env pid s fuel i =
      ⟨.error (.config startTimeoutMsg), { s with child := none },
        [ProcAction.kill pid, ProcAction.reap pid]⟩ := by
  intro fuel
  induction fuel with
  | zero => intro i; rfl
  | succ n ih => intro i; simp [waitLoop, (h i).1, (h i).2, ih]

/-- The readiness wait returns `Ok` only with the state it was given and
no kill actions, and only because some polled connect succeeded. -/
theorem waitLoop_ok_inv (env : StartEnv) (pid : Nat) (s : EngineState) :
    ∀ fuel i, (waitLoop env pid s fuel i).result = .ok () →
      waitLoop env pid s fuel i = ⟨.ok (), s, []⟩ := by
  intro fuel
  induction fuel with
  | zero => intro i h; simp [waitLoop] at h
  | succ n ih =>
    intro i h
    rw [waitLoop] at h ⊢
    by_cases hc : env.connectOk i
    · simp [hc]
    · simp only [hc, if_false, Bool.false_eq_true] at h ⊢
      cases he : env.exitedAt i with
      | some st => rw [he] at h; exact Except.noConfusion h
      | none => rw [he] at h; exact ih _ h

/-- The result of the readiness wait does not depend on the state it
threads through. -/
theorem waitLoop_result_indep (env : StartEnv) (pid : Nat) (s t : EngineState) :
    ∀ fuel i, (waitLoop env pid s fuel i).result = (waitLoop env pid t fuel i).result := by
  intro fuel
  induction fuel with
  | zero => intro i; rfl
  | succ n ih =>
    intro i
    rw [waitLoop, waitLoop]
    by_cases hc : env.connectOk i
    · simp [hc]
    · simp only [hc, if_false, Bool.false_eq_true]
      cases he : env.exitedAt i with
      | some st => rfl
      | none => exact ih _

/-- All the resolution, storage and spawn steps of `start` succeed, with
enabled user scripts `us` and spawned pid `pid`. -/
def startSpawnHyp (env : StartEnv) (us : List String) (pid : Nat) : Prop :=
  (∃ p, env.enginePath = .ok p) ∧ env.engineExists = true ∧
    (∃ a, env.addonPath = .ok a) ∧ (∃ r, env.rulesDir = .ok r) ∧
    (∃ d, env.dataDir = .ok d) ∧ (∃ cd, env.certDir = .ok cd) ∧
    env.scriptStorage = .ok () ∧ env.userScripts = .ok us ∧
    env.spawnResult = .ok pid

/-- Under `startSpawnHyp`, `startResolve` records the user scripts,
clears the stop flag, stores the new child and port, and enters the
readiness wait. -/
theorem startResolve_spawn (env : StartEnv) (s : EngineState)
    (us : List String) (pid : Nat) (h : startSpawnHyp env us pid) :
    startResolve env s =
      waitLoop env pid
        { s with
          activeScripts := us
          isStopping := false
          child := some ⟨pid⟩
          lastPort := some env.proxyPort }
        startMaxIters 0 := by
  obtain ⟨⟨p, hp⟩, hex, ⟨a, ha⟩, ⟨r, hr⟩, ⟨d, hd⟩, ⟨cd, hcd⟩, hss, hus, hsp⟩ := h
  simp [startResolve, hp, hex, ha, hr, hd, hcd, hss, hus, hsp]

/-- `startResolve` either fails or took the spawn path. -/
theorem startResolve_shape (env : StartEnv) (s : EngineState) :
    (∃ e, (startResolve env s).result = .error e) ∨
      ∃ us pid, env.userScripts = .ok us ∧ env.spawnResult = .ok pid ∧
        startResolve env s =
          waitLoop env pid
            { s with
              activeScripts := us
              isStopping := false
              child := some ⟨pid⟩
              lastPort := some env.proxyPort }
            startMaxIters 0 := by
  cases hp : env.enginePath with
  | error e => exact Or.inl ⟨.config e, by simp [startResolve, hp]⟩
  | ok p =>
    cases hex : env.engineExists with
    | false =>
      exact Or.inl ⟨.notFound ("Engine not found: " ++ p), by simp [startResolve, hp, hex]⟩
    | true =>
      cases ha : env.addonPath with
      | error e => exact Or.inl ⟨e, by simp [startResolve, hp, hex, ha]⟩
      | ok a =>
        cases hr : env.rulesDir with
        | error e => exact Or.inl ⟨.config e, by simp [startResolve, hp, hex, ha, hr]⟩
        | ok r =>
          cases hd : env.dataDir with
          | error e =>
            exact Or.inl ⟨.config e, by simp [startResolve, hp, hex, ha, hr, hd]⟩
          | ok d =>
            cases hcd : env.certDir with
            | error e =>
              exact Or.inl ⟨.config e, by simp [startResolve, hp, hex, ha, hr, hd, hcd]⟩
            | ok cd =>
              cases hss : env.scriptStorage with
              | error e =>
                exact Or.inl
                  ⟨.config e, by simp [startResolve, hp, hex, ha, hr, hd, hcd, hss]⟩
              | ok u =>
                cases hus : env.userScripts with
                | error e =>
                  exact Or.inl
                    ⟨.config e, by simp [startResolve, hp, hex, ha, hr, hd, hcd, hss, hus]⟩
                | ok us =>
                  cases hsp : env.spawnResult with
                  | error e =>
                    exact Or.inl
                      ⟨.io e, by simp [startResolve, hp, hex, ha, hr, hd, hcd, hss, hus, hsp]⟩
                  | ok pid =>
                    refine Or.inr ⟨us, pid, rfl, rfl, ?_⟩
                    exact startResolve_spawn env s us pid
                      ⟨⟨p, hp⟩, hex, ⟨a, ha⟩, ⟨r, hr⟩, ⟨d, hd⟩, ⟨cd, hcd⟩, hss, hus, hsp⟩

/-- A successful `start` recorded the user scripts as the active list,
cleared the stop flag, and holds the freshly spawned child and port. -/
theorem start_ok_inv (env : StartEnv) (s : EngineState)
    (h : (start env s).result = .ok ()) :
    ∃ us pid, env.userScripts = .ok us ∧ env.spawnResult = .ok pid ∧
      start env s =
        ⟨.ok (),
          { s with
            activeScripts := us
            isStopping := false
            child := some ⟨pid⟩
            lastPort := some env.proxyPort }, []⟩ := by
  have hres : start env s = startResolve env s := by
    unfold start at h ⊢
    cases hc : s.child with
    | none => rfl
    | some c =>
      cases hw : env.heldTryWait with
      | err e => rw [hc, hw] at h; simp at h
      | ok ex =>
        cases ex with
        | none => rw [hc, hw] at h; simp at h
        | some st => rfl
  rw [hres] at h ⊢
  rcases startResolve_shape env s with ⟨e, he⟩ | ⟨us, pid, hus, hsp, heq⟩
  · rw [he] at h; simp at h
  · rw [heq] at h ⊢
    exact ⟨us, pid, hus, hsp, waitLoop_ok_inv env pid _ _ _ h⟩

end RelayCraft

namespace RelayCraft

/-! Claim theorems. -/

/-- Claim C1: a `start()` call while a live child is held (its
non-blocking exit check reports `Ok(None)`) fails with the
already-running error (`AppError::Config("Proxy is already running")`)
and leaves the whole supervisor state untouched: same child handle and
pid, same active script list, same last port, same stop flag. -/
theorem start_already_running_spec (env : StartEnv) (s : EngineState) (c : Child)
    (hc : s.child = some c) (hw : env.heldTryWait = .ok none) :
    start env s = ⟨.error (.config alreadyRunningMsg), s, []⟩ ∧
      (start env s).state = s ∧
      (start env s).state.child = some c ∧
      (start env s).state.activeScripts = s.activeScripts ∧
      (start env s).state.lastPort = s.lastPort ∧
      (start env s).state.isStopping = s.isStopping := by
  have h : start env s = ⟨.error (.config alreadyRunningMsg), s, []⟩ := by
    simp [start, hc, hw]
  exact ⟨h, by rw [h], by rw [h]; exact hc, by rw [h], by rw [h], by rw [h]⟩

/-- Witness for C1 at a concrete state holding child pid 7 and a live
exit check. -/
theorem start_already_running_spec_witness :
    start { sampleStartEnv with heldTryWait := .ok none } (sampleState (some ⟨7⟩)) =
      ⟨.error (.config alreadyRunningMsg), sampleState (some ⟨7⟩), []⟩ ∧
      (start { sampleStartEnv with heldTryWait := .ok none }
        (sampleState (some ⟨7⟩))).state.child = some ⟨7⟩ :=
  ⟨(start_already_running_spec _ (sampleState (some ⟨7⟩)) ⟨7⟩ rfl rfl).1,
    (start_already_running_spec _ (sampleState (some ⟨7⟩)) ⟨7⟩ rfl rfl).2.2.1⟩

/-- Claim C4: with healthy locks, `stop()` always returns `Ok` — in
particular when the recorded port keeps accepting connections for the
whole 5 s release wait — it leaves the active script list empty, and on
a supervisor with no child it is a no-op success issuing no kill. -/
theorem stop_spec (env : StopEnv) (s : EngineState)
    (hcl : env.childLockOk = true) (hsl : env.scriptsLockOk = true) :
    (stop env s).result = .ok () ∧
      (stop env s).state.activeScripts = [] ∧
      ((∀ i, env.portAccepting i = true) → (stop env s).result = .ok ()) ∧
      (s.child = none →
        (stop env s).result = .ok () ∧ (stop env s).state.activeScripts = [] ∧
          (stop env s).actions = []) := by
  refine ⟨?_, ?_, fun _ => ?_, fun hn => ⟨?_, ?_, ?_⟩⟩
  · simp [stop, hcl]
  · simp [stop, hcl, hsl]
  · simp [stop, hcl]
  · simp [stop, hcl]
  · simp [stop, hcl, hsl]
  · simp [stop, hcl, hn]

/-- Witness for C4: concrete stop with healthy locks, a port that never
closes, both with a held child and with none. -/
theorem stop_spec_witness :
    (stop sampleStopEnv (sampleState (some ⟨7⟩))).result = .ok () ∧
      (stop sampleStopEnv (sampleState (some ⟨7⟩))).state.activeScripts = [] ∧
      (stop sampleStopEnv (sampleState none)).result = .ok () ∧
      (stop sampleStopEnv (sampleState none)).actions = [] :=
  ⟨(stop_spec sampleStopEnv (sampleState (some ⟨7⟩)) rfl rfl).1,
    (stop_spec sampleStopEnv (sampleState (some ⟨7⟩)) rfl rfl).2.1,
    ((stop_spec sampleStopEnv (sampleState none) rfl rfl).2.2.2 rfl).1,
    ((stop_spec sampleStopEnv (sampleState none) rfl rfl).2.2.2 rfl).2.2⟩

/-- Claim C5: `get_status` probes the held child without blocking; when
the probe reports an exit it clears the handle, so every subsequent call
reports not running whatever its probe would say; the returned script
list is the stored list exactly when running and empty otherwise, and
the active flag is the independently stored traffic flag. -/
theorem get_status_spec (s : EngineState) (tw : TryWaitResult) :
    ((get_status tw s).1.active = s.trafficActive) ∧
      ((get_status tw s).1.running = true →
        (get_status tw s).1.active_scripts = s.activeScripts) ∧
      ((get_status tw s).1.running = false →
        (get_status tw s).1.active_scripts = []) ∧
      (∀ c st, s.child = some c → tw = .ok (some st) →
        (get_status tw s).1.running = false ∧
          (get_status tw s).2.child = none ∧
          ∀ tw2, (get_status tw2 (get_status tw s).2).1.running = false) := by
  refine ⟨?_, ?_, ?_, ?_⟩
  · simp [get_status]
  · intro h
    unfold get_status at h ⊢
    simp only at h ⊢
    rw [h]
    simp
  · intro h
    unfold get_status at h ⊢
    simp only at h ⊢
    rw [h]
    simp
  · intro c st hc hw
    subst hw
    have h1 : (get_status (.ok (some st)) s).1.running = false := by
      simp [get_status, hc]
    have hstate : (get_status (.ok (some st)) s).2 = { s with child := none } := by
      simp [get_status, hc]
    refine ⟨h1, by rw [hstate], fun tw2 => ?_⟩
    rw [hstate]
    simp [get_status]

/-- Witness for C5: child pid 3 observed exited with status 1; the
handle is cleared and a second probe-free call reports not running. -/
theorem get_status_spec_witness :
    (get_status (.ok (some 1)) (sampleState (some ⟨3⟩))).1.running = false ∧
      (get_status (.ok (some 1)) (sampleState (some ⟨3⟩))).2.child = none ∧
      (get_status (.ok none)
        ((get_status (.ok (some 1)) (sampleState (some ⟨3⟩))).2)).1.running = false ∧
      (get_status (.ok none) (sampleState (some ⟨3⟩))).1.active_scripts = ["old.py"] :=
  ⟨((get_status_spec (sampleState (some ⟨3⟩)) (.ok (some 1))).2.2.2 ⟨3⟩ 1 rfl rfl).1,
    ((get_status_spec (sampleState (some ⟨3⟩)) (.ok (some 1))).2.2.2 ⟨3⟩ 1 rfl rfl).2.1,
    ((get_status_spec (sampleState (some ⟨3⟩)) (.ok (some 1))).2.2.2 ⟨3⟩ 1 rfl rfl).2.2
      (.ok none),
    (get_status_spec (sampleState (some ⟨3⟩)) (.ok none)).2.1 rfl⟩

/-- An observation keeps the watcher looping exactly when it is a held
child whose exit check returned `Ok(None)`. -/
theorem obsKeepsLooping_iff (o : WatchObs) :
    obsKeepsLooping o = true ↔ ∃ p b, o = .child p (.ok none) b := by
  cases o with
  | lockFailed => simp [obsKeepsLooping]
  | noChild => simp [obsKeepsLooping]
  | child p tw b =>
    cases tw with
    | err e => simp [obsKeepsLooping]
    | ok ex =>
      cases ex with
      | none => simp [obsKeepsLooping]
      | some st => simp [obsKeepsLooping]

/-- Claim C3: the crash watcher records a crash event exactly when it
observes a held child that has exited while the stop flag is unset (a
requested stop records nothing); it records at most one crash event per
run; on any observed exit it clears the active scripts and stops
looping; and with no child held it exits silently. -/
theorem crash_watcher_spec :
    (∀ obs, countCrashEvents (crashWatcherRun obs).1 ≤ 1) ∧
      (∀ obs pid st, CrashLogEntry.crashEvent pid st ∈ (crashWatcherRun obs).1 →
        WatchObs.child pid (.ok (some st)) false ∈ obs) ∧
      (∀ pre post pid st stopping, (∀ o ∈ pre, obsKeepsLooping o = true) →
        crashWatcherRun (pre ++ WatchObs.child pid (.ok (some st)) stopping :: post) =
          ((if stopping then [] else [CrashLogEntry.crashEvent pid st]), true)) ∧
      (∀ rest, crashWatcherRun (WatchObs.noChild :: rest) = ([], false)) := by
  refine ⟨?_, ?_, ?_, fun rest => rfl⟩
  · intro obs
    induction obs with
    | nil => simp [crashWatcherRun, countCrashEvents]
    | cons o rest ih =>
      cases o with
      | lockFailed => simp [crashWatcherRun, countCrashEvents]
      | noChild => simp [crashWatcherRun, countCrashEvents]
      | child p tw b =>
        cases tw with
        | err e => simp [crashWatcherRun, countCrashEvents, isCrashEvent]
        | ok ex =>
          cases ex with
          | none => simpa [crashWatcherRun] using ih
          | some st =>
            cases b <;> simp [crashWatcherRun, countCrashEvents, isCrashEvent]
  · intro obs pid st
    induction obs with
    | nil => intro h; simp [crashWatcherRun] at h
    | cons o rest ih =>
      intro h
      cases o with
      | lockFailed => simp [crashWatcherRun] at h
      | noChild => simp [crashWatcherRun] at h
      | child p tw b =>
        cases tw with
        | err e => simp [crashWatcherRun] at h
        | ok ex =>
          cases ex with
          | none =>
            exact List.mem_cons_of_mem _ (ih (by simpa [crashWatcherRun] using h))
          | some st2 =>
            cases b with
            | true => simp [crashWatcherRun] at h
            | false =>
              simp [crashWatcherRun] at h
              obtain ⟨hp, hs⟩ := h
              subst hp
              subst hs
              exact List.mem_cons_self _ _
  · intro pre post pid st stopping hpre
    induction pre with
    | nil => rfl
    | cons o pre' ih =>
      obtain ⟨p, b, rfl⟩ :=
        (obsKeepsLooping_iff o).1 (hpre o (List.mem_cons_self o pre'))
      simpa [crashWatcherRun] using
        ih fun o' ho' => hpre o' (List.mem_cons_of_mem _ ho')

/-- Witness for C3: a run that loops once and then observes an exit of
pid 7 with status 1 and an unset stop flag records exactly that crash
event and clears the scripts; a no-child run records nothing. -/
theorem crash_watcher_spec_witness :
    crashWatcherRun [WatchObs.child 7 (.ok none) false,
        WatchObs.child 7 (.ok (some 1)) false] =
      ([CrashLogEntry.crashEvent 7 1], true) ∧
      countCrashEvents (crashWatcherRun [WatchObs.child 7 (.ok none) false,
        WatchObs.child 7 (.ok (some 1)) false]).1 ≤ 1 ∧
      WatchObs.child 7 (.ok (some 1)) false ∈
        [WatchObs.child 7 (.ok none) false, WatchObs.child 7 (.ok (some 1)) false] ∧
      crashWatcherRun [WatchObs.noChild] = ([], false) :=
  ⟨crash_watcher_spec.2.2.1 [WatchObs.child 7 (.ok none) false] [] 7 1 false
      (by decide),
    crash_watcher_spec.1 [WatchObs.child 7 (.ok none) false,
      WatchObs.child 7 (.ok (some 1)) false],
    crash_watcher_spec.2.1 [WatchObs.child 7 (.ok none) false,
      WatchObs.child 7 (.ok (some 1)) false] 7 1 (by decide),
    crash_watcher_spec.2.2.2 []⟩

/-- Claim C2: the readiness wait polls every 200 ms for 120 s; each
iteration tries the TCP connect first, so a successful connect ends the
loop as ready no matter what the exit check would report; a failed
connect followed by an observed exit aborts immediately with the crash
error carrying the exit status and clears the child handle; if no
iteration connects and the child never exits, the fuel runs out and the
child is killed and reaped before the timeout error is returned; and
after a fully successful spawn, `start` enters exactly this wait. -/
theorem start_readiness_wait_spec :
    (startPollMs * startMaxIters = 120000 ∧ startTimeoutMs = 120000) ∧
      (∀ env pid s fuel i, env.connectOk i = true →
        waitLoop env pid s (fuel + 1) i = ⟨.ok (), s, []⟩) ∧
      (∀ env pid s fuel i st, env.connectOk i = false → env.exitedAt i = some st →
        waitLoop env pid s (fuel + 1) i =
          ⟨.error (.config (crashDuringStartMsg st)), { s with child := none }, []⟩) ∧
      (∀ env pid s fuel i, (∀ j, env.connectOk j = false ∧ env.exitedAt j = none) →
        waitLoop env pid s fuel i =
          ⟨.error (.config startTimeoutMsg), { s with child := none },
            [ProcAction.kill pid, ProcAction.reap pid]⟩) ∧
      (∀ env s us pid, startSpawnHyp env us pid → s.child = none →
        start env s =
          waitLoop env pid
            { s with
              activeScripts := us
              isStopping := false
              child := some ⟨pid⟩
              lastPort := some env.proxyPort }
            startMaxIters 0) := by
  refine ⟨⟨by decide, by decide⟩, ?_, ?_, ?_, ?_⟩
  · intro env pid s fuel i h
    exact waitLoop_connect_now env pid s (fuel + 1) i (Nat.succ_ne_zero fuel) h
  · intro env pid s fuel i st hc he
    exact waitLoop_crash_now env pid s (fuel + 1) i st (Nat.succ_ne_zero fuel) hc he
  · intro env pid s fuel i h
    exact waitLoop_timeout env pid s h fuel i
  · intro env s us pid hspawn hchild
    have hres : start env s = startResolve env s := by
      unfold start
      rw [hchild]
    rw [hres]
    exact startResolve_spawn env s us pid hspawn

/-- Witness for C2: concrete runs of the readiness wait — instant
connect, crash with status 9 at the first poll, and a hang that times
out — plus a concrete successful spawn entering the wait. -/
theorem start_readiness_wait_spec_witness :
    waitLoop sampleStartEnv 4242 (sampleState none) (5 + 1) 0 =
      ⟨.ok (), sampleState none, []⟩ ∧
      waitLoop sampleCrashEnv 4242 (sampleState none) (5 + 1) 0 =
        ⟨.error (.config (crashDuringStartMsg 9)),
          { sampleState none with child := none }, []⟩ ∧
      waitLoop sampleHangEnv 4242 (sampleState none) 3 0 =
        ⟨.error (.config startTimeoutMsg), { sampleState none with child := none },
          [ProcAction.kill 4242, ProcAction.reap 4242]⟩ ∧
      start sampleStartEnv (sampleState none) =
        waitLoop sampleStartEnv 4242
          { sampleState none with
            activeScripts := ["/scripts/user1.py", "/scripts/user2.py"]
            isStopping := false
            child := some ⟨4242⟩
            lastPort := some 9090 }
          startMaxIters 0 :=
  ⟨start_readiness_wait_spec.2.1 sampleStartEnv 4242 (sampleState none) 5 0 rfl,
    start_readiness_wait_spec.2.2.1 sampleCrashEnv 4242 (sampleState none) 5 0 9 rfl rfl,
    start_readiness_wait_spec.2.2.2.1 sampleHangEnv 4242 (sampleState none) 3 0
      fun _ => ⟨rfl, rfl⟩,
    start_readiness_wait_spec.2.2.2.2 sampleStartEnv (sampleState none)
      ["/scripts/user1.py", "/scripts/user2.py"] 4242
      ⟨⟨_, rfl⟩, rfl, ⟨_, rfl⟩, ⟨_, rfl⟩, ⟨_, rfl⟩, ⟨_, rfl⟩, rfl, rfl, rfl⟩ rfl⟩

/-- Claim C6: after a successful `start` whose enabled user scripts were
`us`, the stored active list is exactly `us` in order, `get_status`
reports exactly `us`, and nothing outside `us` (in particular the addon
entry script and the anchor script, which go only into the argument
vector) is in the active list. -/
theorem start_active_scripts_spec (env : StartEnv) (s : EngineState) (us : List String)
    (hus : env.userScripts = .ok us) (h : (start env s).result = .ok ()) :
    (start env s).state.activeScripts = us ∧
      (get_status (.ok none) (start env s).state).1.active_scripts = us ∧
      (∀ x, x ∉ us → x ∉ (start env s).state.activeScripts) := by
  obtain ⟨us', pid, hus', hsp, heq⟩ := start_ok_inv env s h
  injection hus.symm.trans hus' with hh
  subst hh
  rw [heq]
  refine ⟨rfl, by simp [get_status], fun x hx => hx⟩

/-- Witness for C6: the sample start records exactly the two enabled
user scripts, and a third path is absent. -/
theorem start_active_scripts_spec_witness :
    (start sampleStartEnv (sampleState none)).state.activeScripts =
      ["/scripts/user1.py", "/scripts/user2.py"] ∧
      (get_status (.ok none) (start sampleStartEnv (sampleState none)).state).1.active_scripts =
        ["/scripts/user1.py", "/scripts/user2.py"] ∧
      "/addons/anchor.py" ∉ (start sampleStartEnv (sampleState none)).state.activeScripts :=
  ⟨(start_active_scripts_spec sampleStartEnv (sampleState none) _ rfl rfl).1,
    (start_active_scripts_spec sampleStartEnv (sampleState none) _ rfl rfl).2.1,
    (start_active_scripts_spec sampleStartEnv (sampleState none) _ rfl rfl).2.2
      "/addons/anchor.py" (by decide)⟩

/-- The result of `startResolve` does not depend on the incoming
supervisor state. -/
theorem startResolve_result_indep (env : StartEnv) (s t : EngineState) :
    (startResolve env s).result = (startResolve env t).result := by
  cases hp : env.enginePath with
  | error e => simp [startResolve, hp]
  | ok p =>
    cases hex : env.engineExists with
    | false => simp [startResolve, hp, hex]
    | true =>
      cases ha : env.addonPath with
      | error e => simp [startResolve, hp, hex, ha]
      | ok a =>
        cases hr : env.rulesDir with
        | error e => simp [startResolve, hp, hex, ha, hr]
        | ok r =>
          cases hd : env.dataDir with
          | error e => simp [startResolve, hp, hex, ha, hr, hd]
          | ok d =>
            cases hcd : env.certDir with
            | error e => simp [startResolve, hp, hex, ha, hr, hd, hcd]
            | ok cd =>
              cases hss : env.scriptStorage with
              | error e => simp [startResolve, hp, hex, ha, hr, hd, hcd, hss]
              | ok u =>
                cases hus : env.userScripts with
                | error e => simp [startResolve, hp, hex, ha, hr, hd, hcd, hss, hus]
                | ok us =>
                  cases hsp : env.spawnResult with
                  | error e =>
                    simp [startResolve, hp, hex, ha, hr, hd, hcd, hss, hus, hsp]
                  | ok pid =>
                    rw [startResolve_spawn env s us pid
                        ⟨⟨p, hp⟩, hex, ⟨a, ha⟩, ⟨r, hr⟩, ⟨d, hd⟩, ⟨cd, hcd⟩, hss, hus, hsp⟩,
                      startResolve_spawn env t us pid
                        ⟨⟨p, hp⟩, hex, ⟨a, ha⟩, ⟨r, hr⟩, ⟨d, hd⟩, ⟨cd, hcd⟩, hss, hus, hsp⟩]
                    exact waitLoop_result_indep env pid _ _ _ _

/-- Claim C10: a `start` call holding a child whose prologue exit check
reports it already exited proceeds exactly as `startResolve` — its
result is the same as starting with no child held at all, so it cannot
fail with the already-running error — and when every later step
succeeds and the port is ready at the first poll, it returns `Ok`
holding the freshly spawned child. -/
theorem start_dead_child_spec (env : StartEnv) (s : EngineState) (c : Child) (st : Int)
    (hc : s.child = some c) (hw : env.heldTryWait = .ok (some st)) :
    (start env s = startResolve env s) ∧
      ((start env s).result = (start env { s with child := none }).result) ∧
      (∀ us pid, startSpawnHyp env us pid → env.connectOk 0 = true →
        (start env s).result = .ok () ∧ (start env s).state.child = some ⟨pid⟩) := by
  have h1 : start env s = startResolve env s := by
    unfold start
    rw [hc, hw]
  have h2 : start env { s with child := none } =
      startResolve env { s with child := none } := by
    unfold start
    rfl
  refine ⟨h1, ?_, ?_⟩
  · rw [h1, h2]
    exact startResolve_result_indep env s { s with child := none }
  · intro us pid hspawn hconn
    rw [h1, startResolve_spawn env s us pid hspawn,
      waitLoop_connect_now env pid _ startMaxIters 0 (by decide) hconn]
    exact ⟨rfl, rfl⟩

/-- Witness for C10: the sample environment whose prologue finds the
held child (pid 7) dead spawns a fresh child 4242 and succeeds, with the
same result as starting from an empty supervisor. -/
theorem start_dead_child_spec_witness :
    (start sampleDeadEnv (sampleState (some ⟨7⟩))).result = .ok () ∧
      (start sampleDeadEnv (sampleState (some ⟨7⟩))).state.child = some ⟨4242⟩ ∧
      (start sampleDeadEnv (sampleState (some ⟨7⟩))).result =
        (start sampleDeadEnv (sampleState none)).result :=
  ⟨(start_dead_child_spec sampleDeadEnv (sampleState (some ⟨7⟩)) ⟨7⟩ 3 rfl rfl).2.2
      ["/scripts/user1.py", "/scripts/user2.py"] 4242
      ⟨⟨_, rfl⟩, rfl, ⟨_, rfl⟩, ⟨_, rfl⟩, ⟨_, rfl⟩, ⟨_, rfl⟩, rfl, rfl, rfl⟩ rfl |>.1,
    (start_dead_child_spec sampleDeadEnv (sampleState (some ⟨7⟩)) ⟨7⟩ 3 rfl rfl).2.2
      ["/scripts/user1.py", "/scripts/user2.py"] 4242
      ⟨⟨_, rfl⟩, rfl, ⟨_, rfl⟩, ⟨_, rfl⟩, ⟨_, rfl⟩, ⟨_, rfl⟩, rfl, rfl, rfl⟩ rfl |>.2,
    (start_dead_child_spec sampleDeadEnv (sampleState (some ⟨7⟩)) ⟨7⟩ 3 rfl rfl).2.1⟩

/-- Members of the list produced by the discovery loop are exactly the
already-collected pids plus the descendants of the queued pids. -/
theorem discoverLoop_mem (table : List ProcInfo) :
    ∀ (fuel : Nat) (queue pids out : List Nat),
      discoverLoop table fuel queue pids = some out →
      ∀ x, x ∈ out ↔ x ∈ pids ∨ ∃ q ∈ queue, Desc table q x := by
  intro fuel
  induction fuel with
  | zero =>
    intro queue pids out h x
    cases queue with
    | nil =>
      simp only [discoverLoop, Option.some.injEq] at h
      subst h
      simp
    | cons a t => simp [discoverLoop] at h
  | succ n ih =>
    intro queue pids out h x
    cases queue with
    | nil =>
      simp only [discoverLoop, Option.some.injEq] at h
      subst h
      simp
    | cons parent rest =>
      rw [discoverLoop] at h
      rw [ih _ _ _ h x]
      simp only [List.mem_append, List.mem_reverse, List.mem_cons]
      constructor
      · rintro ((hx | hx) | ⟨q, (hq | hq), hd⟩)
        · exact Or.inl hx
        · exact Or.inr ⟨parent, Or.inl rfl, Desc.child hx⟩
        · exact Or.inr ⟨parent, Or.inl rfl, Desc.step hq hd⟩
        · exact Or.inr ⟨q, Or.inr hq, hd⟩
      · rintro (hx | ⟨q, (rfl | hq), hd⟩)
        · exact Or.inl (Or.inl hx)
        · cases hd with
          | child hc => exact Or.inl (Or.inr hc)
          | step hc hd2 => exact Or.inr ⟨_, Or.inl hc, hd2⟩
        · exact Or.inr ⟨q, Or.inr hq, hd⟩

/-- The discovered pid list holds exactly the main pid and its
descendants under the table's parent relation. -/
theorem discoverPids_mem (table : List ProcInfo) (mainPid : Nat) (out : List Nat)
    (h : discoverPids table mainPid = some out) :
    ∀ x, x ∈ out ↔ x = mainPid ∨ Desc table mainPid x := by
  intro x
  rw [discoverLoop_mem table _ _ _ _ h x]
  simp

/-- Claim C7 (amended: the traversal is stack-based depth-first, not
breadth-first): `get_stats` rebuilds the pid cache exactly when it is
empty or older than 30 s, by the stack traversal from the supervisor's
own pid following the parent relation — collecting precisely the full
descendant set — and stamps the refresh instant; otherwise it only
issues a targeted refresh of the cached pids and leaves the cache and
stamp unchanged. -/
theorem get_stats_cache_spec (env : StatsEnv) (s : EngineState) (out : List Nat)
    (hdisc : discoverPids env.table env.mainPid = some out) :
    ((s.cachedPids = [] ∨ pidRefreshMs < env.now - s.lastPidRefresh) →
      get_stats env s =
        some (aggregate env out,
          { s with cachedPids := out, lastPidRefresh := env.now }, .refreshAll) ∧
      (∀ x, x ∈ out ↔ x = env.mainPid ∨ Desc env.table env.mainPid x)) ∧
    (¬(s.cachedPids = [] ∨ pidRefreshMs < env.now - s.lastPidRefresh) →
      get_stats env s = some (aggregate env s.cachedPids, s, .refreshSome s.cachedPids)) := by
  refine ⟨fun hcond => ⟨?_, discoverPids_mem env.table env.mainPid out hdisc⟩,
    fun hcond => ?_⟩
  · unfold get_stats
    rw [if_pos hcond, hdisc]
  · unfold get_stats
    rw [if_neg hcond]

/-- Witness for C7: a stale cache over `sampleTable` is rebuilt to
[1, 2, 3, 5, 4] (pid 4 is a descendant of the main pid 1), while a 10 s
old cache [2, 3] only gets a targeted refresh. -/
theorem get_stats_cache_spec_witness :
    get_stats sampleStatsEnv (sampleState none) =
      some (aggregate sampleStatsEnv [1, 2, 3, 5, 4],
        { sampleState none with cachedPids := [1, 2, 3, 5, 4], lastPidRefresh := 100000 },
        .refreshAll) ∧
      (4 ∈ [1, 2, 3, 5, 4] ↔ 4 = 1 ∨ Desc sampleTable 1 4) ∧
      get_stats sampleStatsEnv sampleFreshState =
        some (aggregate sampleStatsEnv [2, 3], sampleFreshState, .refreshSome [2, 3]) :=
  ⟨((get_stats_cache_spec sampleStatsEnv (sampleState none) [1, 2, 3, 5, 4] rfl).1
      (Or.inl rfl)).1,
    ((get_stats_cache_spec sampleStatsEnv (sampleState none) [1, 2, 3, 5, 4] rfl).1
      (Or.inl rfl)).2 4,
    (get_stats_cache_spec sampleStatsEnv sampleFreshState [1, 2, 3, 5, 4] rfl).2
      (by decide)⟩

/-- Counterexample to C7 as stated: the rebuild pops the most recently
discovered pid first (`Vec::pop`), so on `sampleTable` it caches
[1, 2, 3, 5, 4], while a breadth-first traversal yields [1, 2, 3, 4, 5]. -/
theorem get_stats_not_bfs_counterexample :
    (get_stats sampleStatsEnv (sampleState none)).map (fun r => r.2.1.cachedPids) =
      some [1, 2, 3, 5, 4] ∧
      bfsDiscoverPids sampleTable 1 = some [1, 2, 3, 4, 5] ∧
      ([1, 2, 3, 5, 4] : List Nat) ≠ [1, 2, 3, 4, 5] :=
  ⟨by decide, by decide, by decide⟩

/-- The aggregation fold: memory and CPU accumulate as sums over the pid
list, and the run-time slot is set exactly when the main pid occurs in
the list and is still present in the table. -/
theorem statsFold_spec (table : List ProcInfo) (mainPid : Nat) :
    ∀ (pids : List Nat) (acc : Nat × ℚ × Nat),
      pids.foldl (statsStep table mainPid) acc =
        (acc.1 + (pids.map (memOf table)).sum,
          acc.2.1 + (pids.map (cpuOf table)).sum,
          if mainPid ∈ pids ∧ (table.find? fun p => p.pid == mainPid).isSome then
            runTimeOf table mainPid
          else acc.2.2)
  | [], acc => by simp
  | pid :: rest, acc => by
    rw [List.foldl_cons,
      statsFold_spec table mainPid rest (statsStep table mainPid acc pid)]
    simp only [List.map_cons, List.sum_cons, List.mem_cons, Prod.mk.injEq]
    refine ⟨?_, ?_, ?_⟩
    · cases hfind : table.find? fun p => p.pid == pid with
      | none => simp [statsStep, hfind, memOf]
      | some p => simp [statsStep, hfind, memOf]; omega
    · cases hfind : table.find? fun p => p.pid == pid with
      | none => simp [statsStep, hfind, cpuOf]
      | some p => simp [statsStep, hfind, cpuOf]; ring
    · cases hfind : table.find? fun p => p.pid == pid with
      | none =>
        have hstep : (statsStep table mainPid acc pid).2.2 = acc.2.2 := by
          simp [statsStep, hfind]
        rw [hstep]
        by_cases hS : (table.find? fun p => p.pid == mainPid).isSome
        · have hne : ¬mainPid = pid := by
            intro heq
            rw [heq, hfind] at hS
            simp at hS
          simp [hS, hne]
        · simp [hS]
      | some p =>
        have hstep : (statsStep table mainPid acc pid).2.2 =
            if pid = mainPid then p.runTime else acc.2.2 := by
          simp [statsStep, hfind]
        rw [hstep]
        by_cases hpm : pid = mainPid
        · subst hpm
          have hS : (table.find? fun pr => pr.pid == pid).isSome = true := by
            rw [hfind]; rfl
          have hrt : runTimeOf table pid = p.runTime := by
            simp [runTimeOf, hfind]
          by_cases hmem : pid ∈ rest <;> simp [hS, hmem, hrt]
        · have hne : ¬mainPid = pid := fun heq => hpm heq.symm
          simp [hpm, hne]

/-- Claim C8 (amended: the 0-100 bound holds provided the summed
per-process readings do not exceed cores x 100; the code has no clamp):
`get_stats` aggregation sums memory over the cached pids still present
in the table, sums CPU and divides by the core count, takes the run
time from the main process only, and skips vanished pids without error;
the returned stats are always the aggregation of the resulting cache. -/
theorem get_stats_aggregate_spec (env : StatsEnv) (pids : List Nat) :
    (aggregate env pids).memory_usage = (pids.map (memOf env.table)).sum ∧
      (0 < env.numCpus →
        (aggregate env pids).cpu_usage =
          (pids.map (cpuOf env.table)).sum / (env.numCpus : ℚ)) ∧
      (0 < env.numCpus →
        (pids.map (cpuOf env.table)).sum ≤ 100 * (env.numCpus : ℚ) →
        (aggregate env pids).cpu_usage ≤ 100) ∧
      ((aggregate env pids).up_time =
        if env.mainPid ∈ pids then runTimeOf env.table env.mainPid else 0) ∧
      (∀ q, env.table.find? (fun p => p.pid == q) = none →
        aggregate env (q :: pids) = aggregate env pids) ∧
      (∀ s stats s2 act, get_stats env s = some (stats, s2, act) →
        stats = aggregate env s2.cachedPids) := by
  have hfold := statsFold_spec env.table env.mainPid pids (0, 0, 0)
  have hmem : (aggregate env pids).memory_usage = (pids.map (memOf env.table)).sum := by
    show (pids.foldl (statsStep env.table env.mainPid) (0, 0, 0)).1 = _
    rw [hfold]
    exact Nat.zero_add _
  have hcpu : ∀ _ : 0 < env.numCpus,
      (aggregate env pids).cpu_usage =
        (pids.map (cpuOf env.table)).sum / (env.numCpus : ℚ) := by
    intro hpos
    show (if 0 < env.numCpus then
        (pids.foldl (statsStep env.table env.mainPid) (0, 0, 0)).2.1 / (env.numCpus : ℚ)
      else (pids.foldl (statsStep env.table env.mainPid) (0, 0, 0)).2.1) = _
    rw [if_pos hpos, hfold]
    show ((0 : ℚ) + _) / _ = _ / _
    rw [zero_add]
  refine ⟨hmem, hcpu, ?_, ?_, ?_, ?_⟩
  · intro hpos hbound
    have hn : (0 : ℚ) < (env.numCpus : ℚ) := by exact_mod_cast hpos
    rw [hcpu hpos, div_le_iff₀ hn]
    simpa using hbound
  · show (pids.foldl (statsStep env.table env.mainPid) (0, 0, 0)).2.2 = _
    rw [hfold]
    by_cases hS : (env.table.find? fun p => p.pid == env.mainPid).isSome
    · simp [hS]
    · have hz : runTimeOf env.table env.mainPid = 0 := by
        cases hf : env.table.find? fun p => p.pid == env.mainPid with
        | none => simp [runTimeOf, hf]
        | some p => rw [hf] at hS; simp at hS
      simp [hS, hz]
  · intro q hq
    simp [aggregate, List.foldl_cons, statsStep, hq]
  · intro s stats s2 act hgs
    unfold get_stats at hgs
    by_cases hcond : s.cachedPids = [] ∨ pidRefreshMs < env.now - s.lastPidRefresh
    · rw [if_pos hcond] at hgs
      cases hdisc : discoverPids env.table env.mainPid with
      | none => rw [hdisc] at hgs; exact absurd hgs (by simp)
      | some outp =>
        rw [hdisc] at hgs
        simp only [Option.some.injEq, Prod.mk.injEq] at hgs
        obtain ⟨h1, h2, -⟩ := hgs
        rw [← h1, ← h2]
    · rw [if_neg hcond] at hgs
      simp only [Option.some.injEq, Prod.mk.injEq] at hgs
      obtain ⟨h1, h2, -⟩ := hgs
      rw [← h1, ← h2]

/-- Witness for C8: over `sampleTable` with 2 cores and cache
[1, 2, 3, 5, 4], memory sums to 150, CPU sums to 15 and normalizes to
7.5 which is at most 100, the run time comes from main pid 1 (absent
from the table, hence 0), and prepending the vanished pid 99 changes
nothing. -/
theorem get_stats_aggregate_spec_witness :
    (aggregate sampleStatsEnv [1, 2, 3, 5, 4]).memory_usage =
      ([1, 2, 3, 5, 4].map (memOf sampleTable)).sum ∧
      (aggregate sampleStatsEnv [1, 2, 3, 5, 4]).cpu_usage =
        ([1, 2, 3, 5, 4].map (cpuOf sampleTable)).sum / ((2 : Nat) : ℚ) ∧
      (aggregate sampleStatsEnv [1, 2, 3, 5, 4]).cpu_usage ≤ 100 ∧
      (aggregate sampleStatsEnv [1, 2, 3, 5, 4]).up_time =
        runTimeOf sampleTable 1 ∧
      aggregate sampleStatsEnv (99 :: [1, 2, 3, 5, 4]) =
        aggregate sampleStatsEnv [1, 2, 3, 5, 4] ∧
      (∀ stats s2 act,
        get_stats sampleStatsEnv sampleFreshState = some (stats, s2, act) →
        stats = aggregate sampleStatsEnv s2.cachedPids) := by
  have hsum : ([1, 2, 3, 5, 4].map (cpuOf sampleStatsEnv.table)).sum = 15 := by
    have e1 : cpuOf sampleStatsEnv.table 1 = 0 := rfl
    have e2 : cpuOf sampleStatsEnv.table 2 = 1 := rfl
    have e3 : cpuOf sampleStatsEnv.table 3 = 2 := rfl
    have e5 : cpuOf sampleStatsEnv.table 5 = 8 := rfl
    have e4 : cpuOf sampleStatsEnv.table 4 = 4 := rfl
    simp only [List.map_cons, List.map_nil, e1, e2, e3, e5, e4,
      List.sum_cons, List.sum_nil]
    norm_num
  refine ⟨(get_stats_aggregate_spec sampleStatsEnv [1, 2, 3, 5, 4]).1,
    (get_stats_aggregate_spec sampleStatsEnv [1, 2, 3, 5, 4]).2.1 (by decide),
    (get_stats_aggregate_spec sampleStatsEnv [1, 2, 3, 5, 4]).2.2.1 (by decide) ?_,
    ?_,
    (get_stats_aggregate_spec sampleStatsEnv [1, 2, 3, 5, 4]).2.2.2.2.1 99 rfl,
    fun stats s2 act =>
      (get_stats_aggregate_spec sampleStatsEnv [1, 2, 3, 5, 4]).2.2.2.2.2
        sampleFreshState stats s2 act⟩
  · rw [hsum]
    norm_num [sampleStatsEnv]
  · rw [(get_stats_aggregate_spec sampleStatsEnv [1, 2, 3, 5, 4]).2.2.2.1]
    decide

/-- Counterexample to C8 as stated: one core and a single cached process
whose CPU reading is 150 make `get_stats` report `cpu_usage = 150`,
which exceeds 100 — the code never clamps the normalized value. -/
theorem get_stats_cpu_not_clamped_counterexample :
    (get_stats overloadStatsEnv overloadState).map (fun r => r.1.cpu_usage) =
      some 150 ∧ ¬((150 : ℚ) ≤ 100) := by
  have hcond : ¬(overloadState.cachedPids = [] ∨
      pidRefreshMs < overloadStatsEnv.now - overloadState.lastPidRefresh) := by decide
  have hfind : overloadStatsEnv.table.find? (fun p => p.pid == 5) =
      some ⟨5, none, 0, 150, 0⟩ := rfl
  have hf := statsFold_spec overloadStatsEnv.table overloadStatsEnv.mainPid [5] (0, 0, 0)
  have hc : ([5].map (cpuOf overloadStatsEnv.table)).sum = (150 : ℚ) := by
    simp [cpuOf, hfind]
  have hcpu : (aggregate overloadStatsEnv [5]).cpu_usage = 150 := by
    show (if 0 < overloadStatsEnv.numCpus then
        (([5] : List Nat).foldl
          (statsStep overloadStatsEnv.table overloadStatsEnv.mainPid) (0, 0, 0)).2.1 /
          (overloadStatsEnv.numCpus : ℚ)
      else (([5] : List Nat).foldl
          (statsStep overloadStatsEnv.table overloadStatsEnv.mainPid) (0, 0, 0)).2.1) = 150
    rw [if_pos (by decide : 0 < overloadStatsEnv.numCpus), hf, hc]
    show ((0 : ℚ) + 150) / ((1 : Nat) : ℚ) = 150
    norm_num
  refine ⟨?_, by norm_num⟩
  unfold get_stats
  rw [if_neg hcond]
  show some (aggregate overloadStatsEnv [5]).cpu_usage = some 150
  rw [hcpu]

/-- Claim C9 (amended: the generic engine domain is passed to the sink
under the domain string "proxy", which the sink maps to the engine log,
not under the string "engine"): classification is purely content-based
with first-matching-marker precedence — script markers, then plugin,
then audit, then crash — and unmarked lines go to the generic engine
domain; the forwarder routes identically whichever stream the line came
from and whatever the sink would answer, so sink failures are swallowed. -/
theorem log_forwarder_spec :
    (∀ line,
      (strContains line "[SCRIPT]" || strContains line "[RELAYCRAFT][SCRIPT]"
        || strContains line "._rc_" || strContains line "_rc_record_hit"
        || strContains line "_rc_log") = true → classifyLine line = "script") ∧
      (∀ line,
        (strContains line "[SCRIPT]" || strContains line "[RELAYCRAFT][SCRIPT]"
          || strContains line "._rc_" || strContains line "_rc_record_hit"
          || strContains line "_rc_log") = false →
        strContains line "[PLUGIN]" = true → classifyLine line = "plugin") ∧
      (∀ line,
        (strContains line "[SCRIPT]" || strContains line "[RELAYCRAFT][SCRIPT]"
          || strContains line "._rc_" || strContains line "_rc_record_hit"
          || strContains line "_rc_log") = false →
        strContains line "[PLUGIN]" = false →
        strContains line "[AUDIT]" = true → classifyLine line = "audit") ∧
      (∀ line,
        (strContains line "[SCRIPT]" || strContains line "[RELAYCRAFT][SCRIPT]"
          || strContains line "._rc_" || strContains line "_rc_record_hit"
          || strContains line "_rc_log") = false →
        strContains line "[PLUGIN]" = false →
        strContains line "[AUDIT]" = false →
        (strContains line "[CRASH]" || strContains line "Traceback") = true →
        classifyLine line = "crash") ∧
      (∀ line,
        (strContains line "[SCRIPT]" || strContains line "[RELAYCRAFT][SCRIPT]"
          || strContains line "._rc_" || strContains line "_rc_record_hit"
          || strContains line "_rc_log") = false →
        strContains line "[PLUGIN]" = false →
        strContains line "[AUDIT]" = false →
        (strContains line "[CRASH]" || strContains line "Traceback") = false →
        classifyLine line = "proxy") ∧
      (∀ f g t u ls, forwardLines f t ls = forwardLines g u ls) ∧
      (∀ f t ls, forwardLines f t ls = ls.map fun l => (classifyLine l, l)) := by
  refine ⟨?_, ?_, ?_, ?_, ?_, fun f g t u ls => rfl, fun f t ls => rfl⟩
  · intro line h
    simp only [classifyLine, h, if_true]
  · intro line h1 h2
    simp only [classifyLine, h1, h2, Bool.false_eq_true, if_false, if_true]
  · intro line h1 h2 h3
    simp only [classifyLine, h1, h2, h3, Bool.false_eq_true, if_false, if_true]
  · intro line h1 h2 h3 h4
    simp only [classifyLine, h1, h2, h3, h4, Bool.false_eq_true, if_false, if_true]
  · intro line h1 h2 h3 h4
    simp only [classifyLine, h1, h2, h3, h4, Bool.false_eq_true, if_false]

/-- Witness for C9: one concrete line per domain, and the generic line
"mitmproxy started" routed to "proxy" independently of stream tag and
sink behavior. -/
theorem log_forwarder_spec_witness :
    classifyLine "[SCRIPT] ran" = "script" ∧
      classifyLine "[PLUGIN] loaded" = "plugin" ∧
      classifyLine "[AUDIT] blocked" = "audit" ∧
      classifyLine "Traceback (most recent call last):" = "crash" ∧
      classifyLine "mitmproxy started" = "proxy" ∧
      forwardLines (fun _ _ => true) "stdout" ["mitmproxy started"] =
        forwardLines (fun _ _ => false) "stderr" ["mitmproxy started"] ∧
      forwardLines (fun _ _ => false) "stderr" ["mitmproxy started"] =
        [("proxy", "mitmproxy started")] :=
  ⟨log_forwarder_spec.1 "[SCRIPT] ran" (by decide),
    log_forwarder_spec.2.1 "[PLUGIN] loaded" (by decide) (by decide),
    log_forwarder_spec.2.2.1 "[AUDIT] blocked" (by decide) (by decide) (by decide),
    log_forwarder_spec.2.2.2.1 "Traceback (most recent call last):" (by decide)
      (by decide) (by decide) (by decide),
    log_forwarder_spec.2.2.2.2.1 "mitmproxy started" (by decide) (by decide)
      (by decide) (by decide),
    log_forwarder_spec.2.2.2.2.2.1 (fun _ _ => true) (fun _ _ => false) "stdout"
      "stderr" ["mitmproxy started"],
    by
      rw [log_forwarder_spec.2.2.2.2.2.2 (fun _ _ => false) "stderr"
        ["mitmproxy started"]]
      decide⟩

/-- Counterexample to C9 as stated: an unmarked line is routed to the
domain string "proxy", not to a domain named "engine" — the sink maps
"proxy" to the engine log file. -/
theorem log_forwarder_generic_domain_counterexample :
    classifyLine "mitmproxy started" = "proxy" ∧
      forwardLines (fun _ _ => false) "stderr" ["mitmproxy started"] =
        [("proxy", "mitmproxy started")] ∧
      ("proxy" : String) ≠ "engine" :=
  ⟨by decide, by decide, by decide⟩

end RelayCraft

